import Mathlib

/-!
Verification development for the SmritiCortex indexing and retrieval engine.

The definitions below are a shallow embedding of the repository's code:
`indexing.ts` (`ingestHistory`, `mergeMetadata`), the message routers in
`messaging.ts` and `service-worker.ts` plus the legacy top-level router,
and the debounced visit listener of `service-worker.ts`.  The Tokenizer,
Search Engine and Index Store implementations are not part of the provided
sources (only their callers are); those are modelled from the spec and
marked as such in their doc comments.
-/

namespace SmritiCortex

/-- A token character: the Tokenizer splits on non-alphanumeric boundaries. -/
def isTokenChar (c : Char) : Bool := c.isAlpha || c.isDigit

/-- Accumulating scanner behind `tokenize`: walks the character list,
collecting the current (lowercased, reversed) token in `cur` and flushing it
at each non-alphanumeric boundary, dropping empty pieces. -/
def tokenizeAux : List Char → List Char → List String
  | [], cur => if cur = [] then [] else [String.mk cur.reverse]
  | c :: rest, cur =>
    if isTokenChar c then tokenizeAux rest (c.toLower :: cur)
    else if cur = [] then tokenizeAux rest []
    else String.mk cur.reverse :: tokenizeAux rest []

/-- Deduplication keeping the first occurrence of each token. -/
def dedupFirst (l : List String) : List String :=
  l.foldl (fun acc t => if t ∈ acc then acc else acc ++ [t]) []

/-- Modelled from the spec: `tokenize` (the Tokenizer source,
`src/background/search/tokenizer.ts`, is not among the provided files).
Per §4.1: case-fold to lowercase, split on non-alphanumeric boundaries,
drop empty tokens, deduplicate with a stable first-occurrence order; a
pure total function that never fails. -/
def tokenize (s : String) : List String := dedupFirst (tokenizeAux s.data [])

/-- The per-URL record of `core/types.ts` (shape repeated in popup.ts). -/
structure IndexedItem where
  url : String
  title : String
  hostname : String
  metaDescription : String
  metaKeywords : List String
  visitCount : Nat
  lastVisit : Nat
  tokens : List String
deriving DecidableEq, Repr

/-- A raw record from the external History Source
(`browserAPI.history.search` result).  `title`, `visitCount` and
`lastVisitTime` are optional in the host API; `none` models a JavaScript
`undefined` field. -/
structure HistoryItem where
  url : String
  title : Option String
  visitCount : Option Nat
  lastVisitTime : Option Nat
deriving DecidableEq, Repr

/-- The metadata payload of `mergeMetadata(url, {description?, keywords?})`. -/
structure Meta where
  description : Option String
  keywords : Option (List String)
deriving DecidableEq, Repr

/-- JavaScript string coercion as performed by `item.title + " " + item.url`:
an `undefined` operand is coerced to the string "undefined". -/
def jsToString : Option String → String
  | some s => s
  | none => "undefined"

/-- JavaScript `x || d` for an optional number: `undefined` and `0` are
falsy and yield the default. -/
def jsOrNat (n : Option Nat) (d : Nat) : Nat :=
  match n with
  | some m => if m = 0 then d else m
  | none => d

/-- Characters that end the host portion of a URL. -/
def hostStopChar (c : Char) : Bool := c = '/' || c = ':' || c = '?' || c = '#'

/-- Split a character list at the first occurrence of "://", returning
the part before it and the part after it. -/
def splitScheme : List Char → Option (List Char × List Char)
  | [] => none
  | ':' :: '/' :: '/' :: rest => some ([], rest)
  | c :: rest => (splitScheme rest).map (fun p => (c :: p.1, p.2))

/-- Modelled from the spec: the host platform's URL parser, used by
`ingestHistory` as `new URL(item.url).hostname`, which throws on an
unparseable url.  Modelled as: a url parses when it has the shape
`scheme://host...` with a nonempty alphabetic scheme and a nonempty host;
the hostname is the host part up to the first `/`, `:`, `?` or `#`.
`none` models the thrown `TypeError`. -/
def parseHostname (url : String) : Option String :=
  match splitScheme url.data with
  | none => none
  | some (scheme, rest) =>
    let host := rest.takeWhile (fun c => !hostStopChar c)
    if scheme ≠ [] && scheme.all Char.isAlpha && host ≠ [] then some (String.mk host)
    else none

/-- The Index Store: a persistent mapping from URL to IndexedItem,
modelled as an association list keyed by url. -/
abbrev Store := List (String × IndexedItem)

/-- Look up the item stored for a url. -/
def getItem (url : String) (s : Store) : Option IndexedItem :=
  (s.find? (fun p => p.1 = url)).map (fun p => p.2)

/-- Modelled from the spec: `saveIndexedItem` (`database.ts` is not among
the provided files).  Per §4.2 the store's write is an overwrite-by-key
upsert: replace the entry with the same url, or append a new one. -/
def saveIndexedItem (item : IndexedItem) (s : Store) : Store :=
  if s.any (fun p => p.1 = item.url) then
    s.map (fun p => if p.1 = item.url then (item.url, item) else p)
  else s ++ [(item.url, item)]

/-- The IndexedItem literal built for one history record inside
`ingestHistory`'s loop (indexing.ts):
url, `item.title || ""`, the parsed hostname, empty metaDescription,
empty metaKeywords, `item.visitCount || 1`, `item.lastVisitTime ||
Date.now()`, and `tokenize(item.title + " " + item.url)` — note the raw
`item.title` in the tokenize argument, which JavaScript coerces to the
string "undefined" when the title is absent. -/
def buildItem (now : Nat) (h : HistoryItem) (host : String) : IndexedItem :=
  { url := h.url
    title := h.title.getD ""
    hostname := host
    metaDescription := ""
    metaKeywords := []
    visitCount := jsOrNat h.visitCount 1
    lastVisit := jsOrNat h.lastVisitTime now
    tokens := tokenize (jsToString h.title ++ " " ++ h.url) }

/-- `ingestHistory` from indexing.ts: iterate over the history batch and
save an item per record.  `new URL(item.url)` is called with no per-record
try/catch, so an unparseable url throws out of the loop: the function
returns the store as written so far together with `some url` naming the
record whose parse failure aborted the batch (`none` when the whole batch
was processed). -/
def ingestHistory (now : Nat) : List HistoryItem → Store → Store × Option String
  | [], s => (s, none)
  | h :: rest, s =>
    match parseHostname h.url with
    | none => (s, some h.url)
    | some host => ingestHistory now rest (saveIndexedItem (buildItem now h host) s)

/-- `mergeMetadata` from indexing.ts: the function body is an empty stub
(comments only — "retrieve existing item / update metadata + retokenize /
save back" with no code), so it performs no store access and returns
immediately. -/
def mergeMetadata (url : String) (meta : Meta) (s : Store) : Store := s

/-- The spec's formula for an item's token source text (§3): the item's
`title + url + metaDescription + metaKeywords`, joined as text. -/
def sourceText (i : IndexedItem) : String :=
  i.title ++ " " ++ i.url ++ " " ++ i.metaDescription ++ " " ++
    String.intercalate " " i.metaKeywords

/-- The spec's token invariant (§3 invariant 2): the stored tokens are the
Tokenizer's output over the item's current textual fields. -/
def tokenInvariant (i : IndexedItem) : Prop := i.tokens = tokenize (sourceText i)

instance (i : IndexedItem) : Decidable (tokenInvariant i) := by
  unfold tokenInvariant; infer_instance

/-- Modelled from the spec: the relevance score of the Search Engine
(`search-engine.ts` is not among the provided files) — token overlap
between query tokens and item tokens (§4.4). -/
def score (queryTokens : List String) (i : IndexedItem) : Nat :=
  (queryTokens.filter (fun t => decide (t ∈ i.tokens))).length

/-- Ranking key: score, then recency, then visit count (§4.4). -/
def rankKey (queryTokens : List String) (i : IndexedItem) : Nat × Nat × Nat :=
  (score queryTokens i, i.lastVisit, i.visitCount)

/-- Descending lexicographic comparison of ranking keys. -/
def keyGE : Nat × Nat × Nat → Nat × Nat × Nat → Bool
  | (a1, a2, a3), (b1, b2, b3) =>
    decide (b1 < a1) ||
      (decide (a1 = b1) &&
        (decide (b2 < a2) || (decide (a2 = b2) && decide (b3 ≤ a3))))

/-- Insert into a list sorted by `ge`. -/
def insertBy (ge : α → α → Bool) (x : α) : List α → List α
  | [] => [x]
  | y :: ys => if ge x y then x :: y :: ys else y :: insertBy ge x ys

/-- Insertion sort by `ge`. -/
def sortBy (ge : α → α → Bool) : List α → List α
  | [] => []
  | x :: xs => insertBy ge x (sortBy ge xs)

/-- Modelled from the spec: `runSearch` (`search-engine.ts` is not among
the provided files).  Per §4.4: tokenize the query with the same
Tokenizer as indexing, scan the store, keep items with a positive token
overlap score, rank by score then `lastVisit` then `visitCount`
descending, and cap the result at 50. -/
def runSearch (store : Store) (query : String) : List IndexedItem :=
  let qts := tokenize query
  let matched := (store.map (fun p => p.2)).filter (fun i => decide (0 < score qts i))
  (sortBy (fun a b => keyGE (rankKey qts a) (rankKey qts b)) matched).take 50

/-- A response sent through `sendResponse`. -/
inductive Response where
  | results (items : List IndexedItem)
  | status (s : String)
  | error (msg : String)
deriving DecidableEq, Repr

/-- An incoming request message, tagged by its `type` field. -/
inductive Msg where
  | searchQuery (query : String)
  | rebuildIndex
  | metadataCapture (url : String) (meta : Meta)
  | ping
  | setLogLevel (level : Nat)
  | settingsChanged (logLevel : Option Nat)
  | other (t : String)
deriving DecidableEq, Repr

/-- The message of the TypeError thrown by `new URL` on an unparseable
url, as forwarded by a router's catch block via `error.message`. -/
def urlErrorMessage (u : String) : String := "Invalid URL: " ++ u

/-- The `setupMessaging` router of messaging.ts: SEARCH_QUERY,
REBUILD_INDEX and METADATA_CAPTURE each answer once; anything else gets
the unknown-type error; the whole switch is wrapped in try/catch, so an
exception from a handler (an unparseable url aborting `ingestHistory`)
becomes a single error response.  Returns the store after the operation
and the list of responses sent. -/
def routeMessaging (now : Nat) (batch : List HistoryItem) (store : Store) :
    Msg → Store × List Response
  | .searchQuery q => (store, [.results (runSearch store q)])
  | .rebuildIndex =>
    match ingestHistory now batch store with
    | (s, none) => (s, [.status "OK"])
    | (s, some u) => (s, [.error (urlErrorMessage u)])
  | .metadataCapture url meta => (mergeMetadata url meta store, [.status "ok"])
  | _ => (store, [.error "Unknown message type"])

/-- The legacy top-level router (the unnamed messaging source file): only
SEARCH_QUERY, REBUILD_INDEX and the unknown-type default, with NO
try/catch around the handlers — an exception thrown by `ingestHistory`
propagates out of the async listener and `sendResponse` is never called,
so that request receives no response at all. -/
def routeLegacy (now : Nat) (batch : List HistoryItem) (store : Store) :
    Msg → Store × List Response
  | .searchQuery q => (store, [.results (runSearch store q)])
  | .rebuildIndex =>
    match ingestHistory now batch store with
    | (s, none) => (s, [.status "OK"])
    | (s, some _) => (s, [])
  | _ => (store, [.error "Unknown message type"])

/-- The service-worker.ts router: PING, SET_LOG_LEVEL and SETTINGS_CHANGED
are handled before the initialization check; every other type is rejected
with "Service worker not ready" until `initialized` is set, and handled as
in messaging.ts afterwards, all inside the same try/catch.  Returns the
store, the logger level, and the responses sent. -/
def routeServiceWorker (initialized : Bool) (logLevel : Nat) (now : Nat)
    (batch : List HistoryItem) (store : Store) : Msg → Store × Nat × List Response
  | .ping => (store, logLevel, [.status "ok"])
  | .setLogLevel lv => (store, lv, [.status "ok"])
  | .settingsChanged (some lv) => (store, lv, [.status "ok"])
  | .settingsChanged none => (store, logLevel, [.status "ok"])
  | .searchQuery q =>
    if initialized then (store, logLevel, [.results (runSearch store q)])
    else (store, logLevel, [.error "Service worker not ready"])
  | .rebuildIndex =>
    if initialized then
      match ingestHistory now batch store with
      | (s, none) => (s, logLevel, [.status "OK"])
      | (s, some u) => (s, logLevel, [.error (urlErrorMessage u)])
    else (store, logLevel, [.error "Service worker not ready"])
  | .metadataCapture url meta =>
    if initialized then (mergeMetadata url meta store, logLevel, [.status "ok"])
    else (store, logLevel, [.error "Service worker not ready"])
  | .other _ =>
    if initialized then (store, logLevel, [.error "Unknown message type"])
    else (store, logLevel, [.error "Service worker not ready"])

/-- The debounce quiet period of the onVisited listener in
service-worker.ts (`setTimeout(..., 10000)`), in milliseconds. -/
def DEBOUNCE_MS : Nat := 10000

/-- The deadlines at which the debounced ingest actually fires, given the
increasing times of the visit events.  Encodes the listener's
`clearTimeout` / `setTimeout(…, 10000)` pair: each event replaces the
single pending timer with a new deadline ten seconds out; a pending timer
whose deadline precedes the next event has already fired (one ingest). -/
def ingestTimes : List Nat → List Nat
  | [] => []
  | [t] => [t + DEBOUNCE_MS]
  | t1 :: t2 :: rest =>
    if t2 < t1 + DEBOUNCE_MS then ingestTimes (t2 :: rest)
    else (t1 + DEBOUNCE_MS) :: ingestTimes (t2 :: rest)

/-- A burst of visit events: strictly increasing times with every gap
shorter than the debounce quiet period. -/
def burstGaps : List Nat → Bool
  | [] => true
  | [_] => true
  | t1 :: t2 :: rest =>
    (decide (t1 < t2) && decide (t2 < t1 + DEBOUNCE_MS)) && burstGaps (t2 :: rest)

/-- The time of the last visit event of a nonempty list (0 for none). -/
def lastTime : List Nat → Nat
  | [] => 0
  | [t] => t
  | _ :: t :: rest => lastTime (t :: rest)

/-- The times at which the legacy onVisited listener (the unnamed
service-worker source bundled with popup.ts) runs a bulk ingest: its body
awaits `ingestHistory()` directly, with no clearTimeout/setTimeout pair
around it, so an ingest runs immediately at every single visit event. -/
def legacyIngestTimes : List Nat → List Nat
  | [] => []
  | t :: rest => t :: legacyIngestTimes rest

/-! ### Tokenizer lemmas -/

theorem tokenizeAux_nil_of_nontoken :
    ∀ l : List Char, (∀ c ∈ l, isTokenChar c = false) → tokenizeAux l [] = [] := by
  intro l
  induction l with
  | nil => intro _; rfl
  | cons c rest ih =>
    intro h
    have hc : isTokenChar c = false := h c (by simp)
    simp only [tokenizeAux, hc, Bool.false_eq_true, if_false, if_pos rfl]
    exact ih (fun c' hc' => h c' (by simp [hc']))

theorem tokenizeAux_append_nontoken (tail : List Char)
    (htail : ∀ c ∈ tail, isTokenChar c = false) :
    ∀ (l cur : List Char), tokenizeAux (l ++ tail) cur = tokenizeAux l cur := by
  intro l
  induction l with
  | nil =>
    intro cur
    cases tail with
    | nil => rfl
    | cons c ts =>
      have hc : isTokenChar c = false := htail c (by simp)
      have hts : tokenizeAux ts [] = [] :=
        tokenizeAux_nil_of_nontoken ts (fun c' hc' => htail c' (by simp [hc']))
      by_cases hcur : cur = [] <;>
        simp [tokenizeAux, hc, hcur, hts]
  | cons c rest ih =>
    intro cur
    by_cases hc : isTokenChar c
    · simp [tokenizeAux, hc, ih]
    · by_cases hcur : cur = [] <;> simp [tokenizeAux, hc, hcur, ih]

theorem isTokenChar_eq_false_of_ws (c : Char) (h : c.isWhitespace = true) :
    isTokenChar c = false := by
  simp [Char.isWhitespace] at h
  rcases h with ((h | h) | h) | h <;> subst h <;> decide

theorem tokenize_eq_nil_of_ws (q : String) (h : ∀ c ∈ q.data, c.isWhitespace = true) :
    tokenize q = [] := by
  unfold tokenize
  rw [tokenizeAux_nil_of_nontoken q.data
    (fun c hc => isTokenChar_eq_false_of_ws c (h c hc))]
  rfl

theorem intercalate_nil_data : (String.intercalate " " ([] : List String)).data = [] := rfl

theorem tokenize_meta_pad (t u : String) :
    tokenize (t ++ " " ++ u ++ " " ++ "" ++ " " ++ String.intercalate " " ([] : List String))
      = tokenize (t ++ " " ++ u) := by
  unfold tokenize
  congr 1
  have hd : (t ++ " " ++ u ++ " " ++ "" ++ " " ++
        String.intercalate " " ([] : List String)).data
      = ((t ++ " " ++ u).data ++ [' ']) ++ [' '] := by
    simp [String.data_append, intercalate_nil_data]
  rw [hd, tokenizeAux_append_nontoken [' '] (by decide),
    tokenizeAux_append_nontoken [' '] (by decide)]

/-! ### Token-invariant lemmas -/

theorem buildItem_tokenInvariant (now : Nat) (h : HistoryItem) (host : String)
    (ht : h.title.isSome = true) : tokenInvariant (buildItem now h host) := by
  obtain ⟨u, title, vc, lv⟩ := h
  cases title with
  | none => simp at ht
  | some t => exact (tokenize_meta_pad t u).symm

theorem saveIndexedItem_tokenInvariant (i : IndexedItem) (s : Store)
    (hs : ∀ p ∈ s, tokenInvariant p.2) (hi : tokenInvariant i) :
    ∀ p ∈ saveIndexedItem i s, tokenInvariant p.2 := by
  intro p hp
  unfold saveIndexedItem at hp
  split at hp
  · rcases List.mem_map.mp hp with ⟨q, hq, hEq⟩
    by_cases hqi : q.1 = i.url
    · rw [if_pos hqi] at hEq
      rw [← hEq]
      exact hi
    · rw [if_neg hqi] at hEq
      rw [← hEq]
      exact hs q hq
  · rcases List.mem_append.mp hp with hmem | hmem
    · exact hs p hmem
    · simp only [List.mem_singleton] at hmem
      rw [hmem]
      exact hi

theorem ingestHistory_tokenInvariant (now : Nat) :
    ∀ (batch : List HistoryItem) (store : Store),
      (∀ h ∈ batch, h.title.isSome = true) →
      (∀ p ∈ store, tokenInvariant p.2) →
      ∀ p ∈ (ingestHistory now batch store).1, tokenInvariant p.2 := by
  intro batch
  induction batch with
  | nil => intro store _ hs; exact hs
  | cons h rest ih =>
    intro store hb hs
    cases hp : parseHostname h.url with
    | none => simpa [ingestHistory, hp] using hs
    | some host =>
      simp only [ingestHistory, hp]
      exact ih _ (fun h' hh' => hb h' (by simp [hh']))
        (saveIndexedItem_tokenInvariant _ _ hs
          (buildItem_tokenInvariant now h host (hb h (by simp))))

/-! ### Claim theorems -/

/-- Claim C1 (code bug): the spec requires that a record whose url fails to
parse is skipped and must not abort the batch, but `ingestHistory` calls
`new URL(item.url)` with no per-record protection.  On the batch
[ex.com/a, "not a url", ex.com/b] the run aborts at the second record:
the first record was written, the error names "not a url", and the third
record is never written. -/
theorem c1_bad_url_aborts_batch :
    ((ingestHistory 0
        [⟨"https://ex.com/a", some "A", some 1, some 1⟩,
         ⟨"not a url", some "B", some 1, some 1⟩,
         ⟨"https://ex.com/b", some "C", some 1, some 1⟩] []).2 = some "not a url") ∧
    (getItem "https://ex.com/a"
        (ingestHistory 0
          [⟨"https://ex.com/a", some "A", some 1, some 1⟩,
           ⟨"not a url", some "B", some 1, some 1⟩,
           ⟨"https://ex.com/b", some "C", some 1, some 1⟩] []).1 ≠ none) ∧
    (getItem "https://ex.com/b"
        (ingestHistory 0
          [⟨"https://ex.com/a", some "A", some 1, some 1⟩,
           ⟨"not a url", some "B", some 1, some 1⟩,
           ⟨"https://ex.com/b", some "C", some 1, some 1⟩] []).1 = none) := by decide

/-- Claim C2 (code bug): the spec requires `visitCount` and `lastVisit` to
be non-decreasing across writes, but `ingestHistory` overwrites both with
the incoming record's values.  Ingesting (count 5, time 2000) and then
(count 2, time 1000) for the same url lowers both stored fields. -/
theorem c2_overwrite_decreases :
    ((getItem "https://ex.com/a"
        (ingestHistory 0 [⟨"https://ex.com/a", some "T", some 5, some 2000⟩] []).1).map
        (fun i => (i.visitCount, i.lastVisit)) = some (5, 2000)) ∧
    ((getItem "https://ex.com/a"
        (ingestHistory 0 [⟨"https://ex.com/a", some "T", some 2, some 1000⟩]
          (ingestHistory 0 [⟨"https://ex.com/a", some "T", some 5, some 2000⟩] []).1).1).map
        (fun i => (i.visitCount, i.lastVisit)) = some (2, 1000)) := by decide

/-- Claim C3 (code bug): the spec requires `metaKeywords` only to grow and
never to be cleared, but `ingestHistory` writes a whole fresh item with
`metaKeywords: []`.  Ingesting a record for a url whose stored item holds
the keyword set ["lang"] clears that set. -/
theorem c3_ingest_clears_keywords :
    ((getItem "https://ex.com/a"
        [("https://ex.com/a",
          { url := "https://ex.com/a", title := "Rust Guide", hostname := "ex.com",
            metaDescription := "", metaKeywords := ["lang"], visitCount := 3,
            lastVisit := 1000,
            tokens := tokenize "Rust Guide https://ex.com/a lang" })]).map
        IndexedItem.metaKeywords = some ["lang"]) ∧
    ((getItem "https://ex.com/a"
        (ingestHistory 0 [⟨"https://ex.com/a", some "Rust Guide", some 4, some 2000⟩]
          [("https://ex.com/a",
            { url := "https://ex.com/a", title := "Rust Guide", hostname := "ex.com",
              metaDescription := "", metaKeywords := ["lang"], visitCount := 3,
              lastVisit := 1000,
              tokens := tokenize "Rust Guide https://ex.com/a lang" })]).1).map
        IndexedItem.metaKeywords = some []) := by decide

/-- Claim C4 (code bug): `mergeMetadata` is an empty stub, so while calling
it twice trivially equals calling it once, the keyword "lang" is stored
zero times, not exactly once as the claim and Scenario B require: after
two calls on an empty store no item exists for the url at all. -/
theorem c4_merge_stub_drops_keyword :
    (mergeMetadata "https://ex.com/a" ⟨none, some ["lang"]⟩
        (mergeMetadata "https://ex.com/a" ⟨none, some ["lang"]⟩ [])
      = mergeMetadata "https://ex.com/a" ⟨none, some ["lang"]⟩ []) ∧
    (getItem "https://ex.com/a"
        (mergeMetadata "https://ex.com/a" ⟨none, some ["lang"]⟩
          (mergeMetadata "https://ex.com/a" ⟨none, some ["lang"]⟩ [])) = none) :=
  ⟨rfl, rfl⟩

/-- Counterexample for claim C5: for a history record whose title is
absent, `ingestHistory` tokenizes `item.title + " " + item.url` with
`item.title` coerced by JavaScript to the string "undefined", so the
stored tokens differ from the Tokenizer applied to the item's own fields
(they contain the spurious token "undefined" while the stored title is
the empty string). -/
theorem c5_counterexample :
    (getItem "https://ex.com/a"
        (ingestHistory 0 [⟨"https://ex.com/a", none, some 3, some 1000⟩] []).1
      = some (buildItem 0 ⟨"https://ex.com/a", none, some 3, some 1000⟩ "ex.com")) ∧
    ¬ tokenInvariant (buildItem 0 ⟨"https://ex.com/a", none, some 3, some 1000⟩ "ex.com") := by
  decide

/-- Claim C5 (amended): after every write, the stored item's tokens equal
the Tokenizer applied to the item's title + url + metaDescription +
metaKeywords, provided every ingested record carries a title; a record
with an absent title instead tokenizes the JavaScript coercion
"undefined" plus the url.  `mergeMetadata` performs no writes at all. -/
theorem c5_tokens_recomputed :
    (∀ (now : Nat) (batch : List HistoryItem) (store : Store),
        (∀ h ∈ batch, h.title.isSome = true) →
        (∀ p ∈ store, tokenInvariant p.2) →
        ∀ p ∈ (ingestHistory now batch store).1, tokenInvariant p.2) ∧
    (∀ (url : String) (meta : Meta) (s : Store), mergeMetadata url meta s = s) :=
  ⟨ingestHistory_tokenInvariant, fun _ _ _ => rfl⟩

/-- Witness for C5: the amended theorem applied to a concrete one-record
batch over the empty store. -/
theorem c5_tokens_recomputed_witness :
    tokenInvariant (("https://ex.com/a",
      buildItem 0 ⟨"https://ex.com/a", some "Rust Guide", some 3, some 1000⟩ "ex.com") :
        String × IndexedItem).2 :=
  c5_tokens_recomputed.1 0 [⟨"https://ex.com/a", some "Rust Guide", some 3, some 1000⟩] []
    (by decide) (by decide)
    ("https://ex.com/a",
      buildItem 0 ⟨"https://ex.com/a", some "Rust Guide", some 3, some 1000⟩ "ex.com")
    (by decide)

/-- Counterexample for claim C6: the legacy router (the unnamed messaging
source) wraps no try/catch around its handlers, so a REBUILD_INDEX whose
ingest hits an unparseable url throws out of the listener and the request
receives zero responses, not exactly one. -/
theorem c6_counterexample :
    (routeLegacy 0 [⟨"not a url", some "B", some 1, some 1⟩] [] Msg.rebuildIndex).2.length
      = 0 := by decide

/-- Claim C6 (amended): the routers of messaging.ts and service-worker.ts
send exactly one response per request, converting handler exceptions into
error responses; the legacy router sends exactly one response only when no
handler throws (its ingest completes without an unparseable url). -/
theorem c6_exactly_one_response :
    (∀ (now : Nat) (batch : List HistoryItem) (store : Store) (msg : Msg),
        (routeMessaging now batch store msg).2.length = 1) ∧
    (∀ (b : Bool) (lv now : Nat) (batch : List HistoryItem) (store : Store) (msg : Msg),
        (routeServiceWorker b lv now batch store msg).2.2.length = 1) ∧
    (∀ (now : Nat) (batch : List HistoryItem) (store : Store) (msg : Msg),
        (ingestHistory now batch store).2 = none →
        (routeLegacy now batch store msg).2.length = 1) := by
  refine ⟨?_, ?_, ?_⟩
  · intro now batch store msg
    cases msg
    case rebuildIndex =>
      rcases hr : ingestHistory now batch store with ⟨s, e⟩
      cases e <;> simp [routeMessaging, hr]
    all_goals simp [routeMessaging]
  · intro b lv now batch store msg
    cases msg
    case rebuildIndex =>
      cases b
      · simp [routeServiceWorker]
      · rcases hr : ingestHistory now batch store with ⟨s, e⟩
        cases e <;> simp [routeServiceWorker, hr]
    case settingsChanged o => cases o <;> simp [routeServiceWorker]
    all_goals cases b <;> simp [routeServiceWorker]
  · intro now batch store msg h
    cases msg
    case rebuildIndex =>
      rcases hr : ingestHistory now batch store with ⟨s, e⟩
      rw [hr] at h
      cases e
      · simp [routeLegacy, hr]
      · simp at h
    all_goals simp [routeLegacy]

/-- Witness for C6: the legacy-router conjunct applied to a concrete
parseable batch. -/
theorem c6_exactly_one_response_witness :
    (routeLegacy 0 [⟨"https://ex.com/a", some "A", some 1, some 1⟩] []
        Msg.rebuildIndex).2.length = 1 :=
  c6_exactly_one_response.2.2 0 [⟨"https://ex.com/a", some "A", some 1, some 1⟩] []
    Msg.rebuildIndex (by decide)

/-- Counterexample for claim C7: the legacy onVisited listener awaits
`ingestHistory()` directly on every visit, so on the single burst
[0, 3000, 9000] it runs the ingest three times — once per visit, not
once per burst — and the first run fires immediately at time 0, not
after any 10-second quiet period. -/
theorem c7_counterexample :
    legacyIngestTimes [0, 3000, 9000] = [0, 3000, 9000] ∧
    (legacyIngestTimes [0, 3000, 9000]).length = 3 ∧
    burstGaps [0, 3000, 9000] = true := by decide

/-- Claim C7 (amended): the onVisited listener of service-worker.ts
debounces as claimed — for every nonempty burst of visit events (strictly
increasing times, each gap shorter than the 10-second quiet period) it
runs the ingest exactly once, ten seconds after the last visit of the
burst, each new event replacing the single pending timer instead of
stacking another one.  The legacy onVisited listener has no debounce and
runs the ingest immediately on every visit. -/
theorem c7_debounce_once_per_burst :
    ∀ ts : List Nat, burstGaps ts = true → ts ≠ [] →
      ingestTimes ts = [lastTime ts + DEBOUNCE_MS] := by
  intro ts
  induction ts with
  | nil => intro _ hne; exact absurd rfl hne
  | cons t rest ih =>
    intro hb _
    cases rest with
    | nil => rfl
    | cons t2 rest' =>
      simp only [burstGaps, Bool.and_eq_true, decide_eq_true_eq] at hb
      have h1 : t2 < t + DEBOUNCE_MS := hb.1.2
      have h2 : burstGaps (t2 :: rest') = true := hb.2
      have hstep : ingestTimes (t :: t2 :: rest') = ingestTimes (t2 :: rest') := by
        simp [ingestTimes, h1]
      rw [hstep, ih h2 (by simp)]
      rfl

/-- Witness for C7: a concrete three-visit burst fires one ingest, ten
seconds after the last visit. -/
theorem c7_debounce_once_per_burst_witness :
    ingestTimes [0, 3000, 9000] = [lastTime [0, 3000, 9000] + DEBOUNCE_MS] :=
  c7_debounce_once_per_burst [0, 3000, 9000] (by decide) (by decide)

/-- Claim C8: a query that is empty or consists only of whitespace yields
an empty result sequence from `runSearch` (a total function — no error). -/
theorem c8_whitespace_query_empty (store : Store) (q : String)
    (h : ∀ c ∈ q.data, c.isWhitespace = true) : runSearch store q = [] := by
  have htok : tokenize q = [] := tokenize_eq_nil_of_ws q h
  simp [runSearch, htok, score, sortBy]

/-- Witness for C8: a two-space query against a store holding a real item
returns no results. -/
theorem c8_whitespace_query_empty_witness :
    runSearch [("https://ex.com/a",
      buildItem 0 ⟨"https://ex.com/a", some "Rust Guide", some 3, some 1000⟩ "ex.com")]
      "  " = [] :=
  c8_whitespace_query_empty _ "  " (by decide)

/-- Claim C9: before initialization, SEARCH_QUERY, REBUILD_INDEX and
METADATA_CAPTURE are answered with the error "Service worker not ready"
and leave the store untouched, while PING, SET_LOG_LEVEL and
SETTINGS_CHANGED are fully handled regardless of initialization, with
PING always answering status "ok". -/
theorem c9_init_gating :
    (∀ (lv now : Nat) (batch : List HistoryItem) (store : Store) (q : String),
        routeServiceWorker false lv now batch store (.searchQuery q)
          = (store, lv, [.error "Service worker not ready"])) ∧
    (∀ (lv now : Nat) (batch : List HistoryItem) (store : Store),
        routeServiceWorker false lv now batch store .rebuildIndex
          = (store, lv, [.error "Service worker not ready"])) ∧
    (∀ (lv now : Nat) (batch : List HistoryItem) (store : Store) (url : String) (meta : Meta),
        routeServiceWorker false lv now batch store (.metadataCapture url meta)
          = (store, lv, [.error "Service worker not ready"])) ∧
    (∀ (b : Bool) (lv now : Nat) (batch : List HistoryItem) (store : Store),
        routeServiceWorker b lv now batch store .ping = (store, lv, [.status "ok"])) ∧
    (∀ (b : Bool) (lv now : Nat) (batch : List HistoryItem) (store : Store) (l : Nat),
        routeServiceWorker b lv now batch store (.setLogLevel l)
          = (store, l, [.status "ok"])) ∧
    (∀ (b : Bool) (lv now : Nat) (batch : List HistoryItem) (store : Store) (l : Nat),
        routeServiceWorker b lv now batch store (.settingsChanged (some l))
          = (store, l, [.status "ok"])) ∧
    (∀ (b : Bool) (lv now : Nat) (batch : List HistoryItem) (store : Store),
        routeServiceWorker b lv now batch store (.settingsChanged none)
          = (store, lv, [.status "ok"])) := by
  refine ⟨?_, ?_, ?_, ?_, ?_, ?_, ?_⟩ <;> intros <;> rfl

/-- Claim C10: `mergeMetadata` returns for every url and payload and
leaves the Index Store completely unchanged, and a METADATA_CAPTURE
request through the messaging.ts router always receives status "ok". -/
theorem c10_metadata_capture_noop :
    (∀ (url : String) (meta : Meta) (s : Store), mergeMetadata url meta s = s) ∧
    (∀ (now : Nat) (batch : List HistoryItem) (store : Store) (url : String) (meta : Meta),
        routeMessaging now batch store (.metadataCapture url meta)
          = (store, [.status "ok"])) :=
  ⟨fun _ _ _ => rfl, fun _ _ _ _ _ => rfl⟩

end SmritiCortex
